import Mathlib

/-!
Shallow embedding of the `epoch` Go package (civilware/epoch), the EPOCH
"Event-Driven Propagation of Crowd Hashing" work engine, together with proofs
about its configuration operations, job store, dispatchers and session
accounting.

Modelling conventions:
* Go `uint64` arithmetic is `Nat` reduced modulo `2^64` at each operation that
  can overflow; Go `int` (64-bit) arithmetic is `Int` with explicit two's
  complement wraparound (`i64wrap`).
* Errors returned by Go functions are an explicit `Option EpochErr`.
* External collaborators (the AstroBWTv3 hash, difficulty comparison, the
  websocket) are opaque: their observable effect on a task is an oracle input.
* Wall-clock fields of `EPOCH_Result` (`Duration`, `HashPerSec`) are not
  modelled; they depend on real time.
-/

/-- 2^64, the modulus of Go `uint64` arithmetic. -/
def u64Mod : Nat := 18446744073709551616

/-- Go `uint64` addition: wraps modulo 2^64. -/
def u64add (a b : Nat) : Nat := (a + b) % u64Mod

/-- Go 64-bit `int` wraparound (two's complement). -/
def i64wrap (x : Int) : Int := (x + 9223372036854775808) % 18446744073709551616 - 9223372036854775808

/-- `LIMIT_MAX_HASHES`: maximum value that the EPOCH package will accept hashes
per request at (src/epoch.go). -/
def LIMIT_MAX_HASHES : Int := 10000

/-- `DEFAULT_MAX_THREADS`: default max thread value for EPOCH. -/
def DEFAULT_MAX_THREADS : Int := 2

/-- `block.MINIBLOCK_SIZE` from derohe: the fixed byte length of the miniblock
work buffer decoded by `powHash`. -/
def MINIBLOCK_SIZE : Nat := 48

/-- `rpc.GetBlockTemplate_Result`, the DERO block template streamed by the
GetWork server. Fields are the ones the package reads (`JobID`,
`Blockhashing_blob`, `Difficulty`, `Height`, `LastError`) plus the remaining
record fields (`Blocktemplate_blob`, `Status`) carried along unchanged. -/
structure Template where
  jobID : String
  blocktemplateBlob : String
  blockhashingBlob : String
  difficulty : String
  height : Nat
  lastError : String
  status : String
deriving DecidableEq, Repr

/-- The zero value of `rpc.GetBlockTemplate_Result`. -/
def Template.zero : Template :=
  { jobID := "", blocktemplateBlob := "", blockhashingBlob := "", difficulty := ""
    height := 0, lastError := "", status := "" }

/-- Errors returned by the modelled operations, one constructor per distinct
`fmt.Errorf` site relevant to the claims. -/
inductive EpochErr where
  /-- "epoch is not active" -/
  | notActive
  /-- "hashes exceeds maxHashes %d/%d" (AttemptHashes capacity rejection) -/
  | exceedsMaxHashes
  /-- "requested submission exceeds maxHashes %d/%d" (SubmitHashes capacity rejection) -/
  | submitExceedsMaxHashes
  /-- "cannot exceed %d hashes" (SetMaxHashes limit rejection) -/
  | exceedsLimit
  /-- "could not get EPOCH session after %s" (GetSession deadline) -/
  | timeout
deriving DecidableEq, Repr

/-- The mutable fields of the package-level `EPOCH` struct that the claims
observe, plus `numCPU` (the constant `runtime.NumCPU()` of the host) and two
ghost counters for the semaphore: `inFlight` is the occupancy of the
*current* `semaphore` channel (tokens sent and not yet received), while
`holders` counts the tasks that have acquired a slot (on whatever channel was
current at their launch) and not yet released one. They coincide until a
reconnect swaps the channel under straggler tasks: `StartGetWork` replaces
`epoch.semaphore` with a fresh empty channel without waiting for in-flight
tasks, whose deferred `<-epoch.semaphore` then receives from the new channel.
`capacity` is the buffer size the current channel was created with at
`StartGetWork` (0 for the nil channel before any connection, on which a send
blocks forever). -/
structure EpochState where
  numCPU : Nat
  active : Bool
  processing : Bool
  maxHashes : Int
  maxThreads : Int
  capacity : Nat
  inFlight : Nat
  holders : Nat
  sessionHashes : Nat
  sessionMiniBlocks : Int
  sessionVersion : String
  job : Template
deriving Repr

/-- `SetMaxHashes(i)`: rejects `i > LIMIT_MAX_HASHES` with an error, otherwise
stores `i` (no lower bound is enforced). -/
def setMaxHashes (s : EpochState) (i : Int) : EpochState × Option EpochErr :=
  if i > LIMIT_MAX_HASHES then (s, some .exceedsLimit)
  else ({ s with maxHashes := i }, none)

/-- `SetMaxThreads(i)`: clamps `i` to `runtime.NumCPU()` above and to 1 below,
then stores it. -/
def setMaxThreads (s : EpochState) (i : Int) : EpochState :=
  let m : Int := s.numCPU
  let j : Int := if i > m then m else if i < 1 then 1 else i
  { s with maxThreads := j }

/-- `(*EPOCH).newJob(job)`: replace the stored block template, returning the
template's `LastError` field. -/
def newJob (s : EpochState) (t : Template) : EpochState × String :=
  ({ s with job := t }, t.lastError)

/-- `(*EPOCH).getJob()`: return the stored block template. -/
def getJob (s : EpochState) : Template := s.job

/-- The package `init()` state: port `:10100`, `SetMaxThreads(DEFAULT_MAX_THREADS)`,
`maxHashes = 1000`; every other field is its Go zero value (nil connection,
nil semaphore channel). -/
def initState (numCPU : Nat) : EpochState :=
  setMaxThreads
    { numCPU := numCPU, active := false, processing := false, maxHashes := 1000
      maxThreads := 0, capacity := 0, inFlight := 0, holders := 0, sessionHashes := 0
      sessionMiniBlocks := 0, sessionVersion := "", job := Template.zero }
    DEFAULT_MAX_THREADS

/-- The successful tail of `StartGetWork`: the connection handle is set,
the session hash and miniblock counters are reset to zero and a fresh empty
semaphore channel of capacity `maxThreads` replaces the old one (`Version` is
not touched). The new channel starts with occupancy 0, but `holders` is *not*
reset: tasks of a stopped batch that still hold slots keep holding them and
will release into the new channel. Requires `IsActive()` to have been
false. -/
def startGetWorkOk (s : EpochState) : EpochState :=
  { s with active := true, sessionHashes := 0, sessionMiniBlocks := 0
           capacity := s.maxThreads.toNat, inFlight := 0 }

/-- `StopGetWork()`: closes and clears the connection handle if active. -/
def stopGetWork (s : EpochState) : EpochState := { s with active := false }

/-! ### hex decoding and powHash -/

/-- `encoding/hex.fromHexChar`. -/
def fromHexChar (c : Char) : Option Nat :=
  if 48 ≤ c.toNat ∧ c.toNat ≤ 57 then some (c.toNat - 48)
  else if 97 ≤ c.toNat ∧ c.toNat ≤ 102 then some (c.toNat - 97 + 10)
  else if 65 ≤ c.toNat ∧ c.toNat ≤ 70 then some (c.toNat - 65 + 10)
  else none

/-- Outcome of `hex.Decode(dst, src)` into a destination buffer of length
`dstLen`: either the out-of-range write panic, or the bytes written together
with whether an error (`InvalidByteError` or `ErrLength`) was returned. -/
inductive HexRes where
  /-- the loop attempted `dst[i] = ...` with `i ≥ len(dst)`: runtime panic -/
  | panicked
  /-- normal return: bytes written so far and whether `err != nil` -/
  | done (bytes : List Nat) (isErr : Bool)
deriving DecidableEq, Repr

/-- The loop of `encoding/hex.Decode`: consumes `src` two characters at a
time, converting both before writing `dst[i]`; an invalid character returns an
error, a trailing odd character returns `ErrLength`, and a write past `dstLen`
panics (the Go code never checks `len(dst)`). `acc` holds the bytes written so
far, in reverse. -/
def hexDecodeLoop (dstLen : Nat) (acc : List Nat) : List Char → HexRes
  | [] => .done acc.reverse false
  | [_] => .done acc.reverse true
  | p :: q :: rest =>
    match fromHexChar p, fromHexChar q with
    | some a, some b =>
      if acc.length < dstLen then hexDecodeLoop dstLen ((a * 16 + b) :: acc) rest
      else .panicked
    | _, _ => .done acc.reverse true

/-- `hex.Decode` with an empty accumulator. -/
def hexDecodeGo (dstLen : Nat) (src : List Char) : HexRes :=
  hexDecodeLoop dstLen [] src

/-- Outcome of `powHash()`: a runtime panic escaping it, an error return, or
the 48-byte work buffer that is fed to `astrobwtv3.AstroBWTv3` (the hash value
itself is opaque/external). -/
inductive PowOutcome where
  | panicked
  | failed
  | ok (work : List Nat)
deriving DecidableEq, Repr

/-- `powHash()` up to the external hash call: decode `Blockhashing_blob` into
the 48-byte `work` buffer, fail unless the decode returned no error and wrote
exactly `MINIBLOCK_SIZE` bytes, overwrite the last 12 bytes with fresh
randomness (`rb`), set the final byte to 1, and fail unless the low nibble of
byte 0 is the version marker 1. -/
def powHashModel (blob : String) (rb : List Nat) : PowOutcome :=
  match hexDecodeGo MINIBLOCK_SIZE blob.data with
  | .panicked => .panicked
  | .done bytes isErr =>
    if isErr || bytes.length ≠ MINIBLOCK_SIZE then .failed
    else
      let work := bytes.take (MINIBLOCK_SIZE - 12) ++ rb.take 11 ++ [1]
      if work.headD 0 % 16 ≠ 1 then .failed
      else .ok work

/-! ### the Attempt/Submit dispatchers -/

/-- `Submit_Params`: a precomputed (job, pow hash, work buffer, difficulty)
tuple handed to `SubmitHashes`. -/
structure SubmitParams where
  job : Template
  hashBytes : List Nat
  epochWork : List Nat
  difficulty : Int
deriving DecidableEq, Repr

/-- Observable outcome of one dispatched task: its `submitBlock`/`powHash`
call errored, or succeeded without a valid block, or submitted a valid
block. -/
inductive TaskResult where
  | err
  | invalid
  | valid
deriving DecidableEq, Repr

/-- Scheduling oracle for one dispatcher call, absorbing everything outside
the dispatcher's control: `errSeen k` is whether the shared `result.Error`
was already non-nil when the loop tested it at iteration `k` (this depends on
how the concurrent tasks were scheduled), and `outcome k` is the observable
outcome of the `k`-th launched task (this depends on the current job, the
randomness, the external hash/difficulty check and the network write). -/
structure Sched where
  errSeen : Nat → Bool
  outcome : Nat → TaskResult

/-- Number of loop iterations that launch a task: the loop breaks at the
first iteration whose `result.Error` test fires, otherwise runs all `n`. -/
def launchCount (errSeen : Nat → Bool) (n : Nat) : Nat :=
  ((List.range n).takeWhile (fun k => ! errSeen k)).length

/-- Number of launched tasks whose submission was accepted as valid. -/
def countValid (outcome : Nat → TaskResult) (launched : Nat) : Nat :=
  ((List.range launched).filter (fun k => outcome k == TaskResult.valid)).length

/-- Number of launched tasks that ran to the end of their body without a task
error (in `SubmitHashes` exactly these execute the `i++`). -/
def countNoErr (outcome : Nat → TaskResult) (launched : Nat) : Nat :=
  ((List.range launched).filter (fun k => ! (outcome k == TaskResult.err))).length

/-- Whether any launched task errored (the final value of `result.Error`). -/
def anyErr (outcome : Nat → TaskResult) (launched : Nat) : Bool :=
  (List.range launched).any (fun k => outcome k == TaskResult.err)

/-- `EPOCH_Result` restricted to its machine-checkable fields (`Duration` and
`HashPerSec` are wall-clock). `hashes` is the Go `uint64` result field,
`submitted` the Go `int` field, `errored` whether `result.Error != nil`. -/
structure EpochResult where
  hashes : Nat
  submitted : Int
  errored : Bool
deriving DecidableEq, Repr

/-- The zero `EPOCH_Result`, returned alongside synchronous rejections. -/
def EpochResult.zero : EpochResult := { hashes := 0, submitted := 0, errored := false }

/-- Return value of one dispatcher call: the post-state, the Go `err` return,
and the `EPOCH_Result`. -/
structure CallOut where
  state : EpochState
  err : Option EpochErr
  result : EpochResult

/-- `AttemptHashes(hashes)`: rejects synchronously when inactive or when
`hashes` exceeds `maxHashes` (leaving all state untouched); otherwise launches
tasks for `i = 0,1,...` while `i < hashes` and no batch error is visible,
waits for them, sets `result.Hashes` to the final loop counter, and adds the
loop counter to the session hash total and `result.Submitted` to the session
miniblock total. `processing` is true during the batch and reset by the
deferred `setProcessing(false)`. -/
def attemptHashes (s : EpochState) (hashes : Int) (sch : Sched) : CallOut :=
  if ! s.active then ⟨s, some .notActive, .zero⟩
  else if hashes > s.maxHashes then ⟨s, some .exceedsMaxHashes, .zero⟩
  else
    let launched := launchCount sch.errSeen hashes.toNat
    let submitted : Int := countValid sch.outcome launched
    ⟨{ s with processing := false
              sessionHashes := u64add s.sessionHashes launched
              sessionMiniBlocks := i64wrap (s.sessionMiniBlocks + submitted) },
      none,
      { hashes := launched, submitted := submitted, errored := anyErr sch.outcome launched }⟩

/-- Tasks actually launched by an `AttemptHashes` call (0 on synchronous
rejection). -/
def attemptLaunchCount (s : EpochState) (hashes : Int) (sch : Sched) : Nat :=
  if ! s.active then 0
  else if hashes > s.maxHashes then 0
  else launchCount sch.errSeen hashes.toNat

/-- `SubmitHashes(params)`: rejects synchronously when inactive or when
`len(params)` exceeds `maxHashes`; otherwise launches one task per parameter
while no batch error is visible, waits for them, sets `result.Hashes` to the
shared counter `i` (incremented only by tasks whose `submitBlock` returned no
error), and adds `result.Submitted` to the session miniblock total; the
session hash total is not touched on this path. -/
def submitHashes (s : EpochState) (params : List SubmitParams) (sch : Sched) : CallOut :=
  if ! s.active then ⟨s, some .notActive, .zero⟩
  else if (params.length : Int) > s.maxHashes then ⟨s, some .submitExceedsMaxHashes, .zero⟩
  else
    let launched := launchCount sch.errSeen params.length
    let submitted : Int := countValid sch.outcome launched
    ⟨{ s with processing := false
              sessionMiniBlocks := i64wrap (s.sessionMiniBlocks + submitted) },
      none,
      { hashes := countNoErr sch.outcome launched, submitted := submitted
        errored := anyErr sch.outcome launched }⟩

/-- Tasks actually launched by a `SubmitHashes` call (0 on synchronous
rejection). Every launched task runs to completion ("executes"): there is no
cancellation. -/
def submitLaunchCount (s : EpochState) (params : List SubmitParams) (sch : Sched) : Nat :=
  if ! s.active then 0
  else if (params.length : Int) > s.maxHashes then 0
  else launchCount sch.errSeen params.length

/-! ### per-task semaphore discipline -/

/-- Semaphore-relevant events of one launched task: the dispatcher's
`epoch.semaphore <- struct{}{}` (`acq`), the deferred `<-epoch.semaphore`
(`rel`), and the task's work steps (`work`: the `powHash` and/or
`submitBlock` calls). -/
inductive SemEv where
  | acq
  | rel
  | work
deriving DecidableEq, Repr

/-- The exit paths of the task body launched by `AttemptHashes`: `powHash`
errors, `submitBlock` errors, or `submitBlock` returns (valid or not). -/
inductive AttemptPath where
  | powErr
  | submitErr
  | notValid
  | valid
deriving DecidableEq, Repr

/-- The exit paths of the task body launched by `SubmitHashes`. -/
inductive SubmitPath where
  | submitErr
  | notValid
  | valid
deriving DecidableEq, Repr

/-- Event trace of one `AttemptHashes` task: the slot is acquired before the
goroutine is launched; the deferred release runs on every return path —
after the `powHash` error return, after the `submitBlock` error return, and
after normal completion. -/
def attemptTaskTrace : AttemptPath → List SemEv
  | .powErr => [.acq, .work, .rel]
  | .submitErr => [.acq, .work, .work, .rel]
  | .notValid => [.acq, .work, .work, .rel]
  | .valid => [.acq, .work, .work, .rel]

/-- Event trace of one `SubmitHashes` task: acquire before launch, one
`submitBlock` work step, deferred release on each return path. -/
def submitTaskTrace : SubmitPath → List SemEv
  | .submitErr => [.acq, .work, .rel]
  | .notValid => [.acq, .work, .rel]
  | .valid => [.acq, .work, .rel]

/-! ### operational steps and reachability -/

/-- One observable step of the package: a configuration setter, the read-loop
storing a received template, (successful) connection start, stop, a single
semaphore acquire (blocking channel send: enabled only while a buffer slot is
free) or release by some task, a `setProcessing` write, or a whole dispatcher
call. -/
inductive Step : EpochState → EpochState → Prop where
  | setHashes (s : EpochState) (i : Int) : Step s (setMaxHashes s i).1
  | setThreads (s : EpochState) (i : Int) : Step s (setMaxThreads s i)
  | recvJob (s : EpochState) (t : Template) : Step s (newJob s t).1
  | start (s : EpochState) : s.active = false → Step s (startGetWorkOk s)
  | stop (s : EpochState) : Step s (stopGetWork s)
  | acquire (s : EpochState) : s.inFlight < s.capacity →
      Step s { s with inFlight := s.inFlight + 1, holders := s.holders + 1 }
  | release (s : EpochState) : 0 < s.inFlight →
      Step s { s with inFlight := s.inFlight - 1, holders := s.holders - 1 }
  | proc (s : EpochState) (b : Bool) : Step s { s with processing := b }
  | attempt (s : EpochState) (n : Int) (sch : Sched) : Step s (attemptHashes s n sch).state
  | submit (s : EpochState) (params : List SubmitParams) (sch : Sched) :
      Step s (submitHashes s params sch).state

/-- States reachable from the package `init()` state on a host with `numCPU`
CPUs. -/
inductive Reachable (numCPU : Nat) : EpochState → Prop where
  | init : Reachable numCPU (initState numCPU)
  | step {s t : EpochState} : Reachable numCPU s → Step s t → Reachable numCPU t

/-- `Step` restricted to quiescent reconnects: identical constructors, except
that `start` additionally requires that no task still holds a semaphore slot,
i.e. the semaphore channel is never swapped out from under straggler tasks. -/
inductive QStep : EpochState → EpochState → Prop where
  | setHashes (s : EpochState) (i : Int) : QStep s (setMaxHashes s i).1
  | setThreads (s : EpochState) (i : Int) : QStep s (setMaxThreads s i)
  | recvJob (s : EpochState) (t : Template) : QStep s (newJob s t).1
  | start (s : EpochState) : s.active = false → s.holders = 0 → QStep s (startGetWorkOk s)
  | stop (s : EpochState) : QStep s (stopGetWork s)
  | acquire (s : EpochState) : s.inFlight < s.capacity →
      QStep s { s with inFlight := s.inFlight + 1, holders := s.holders + 1 }
  | release (s : EpochState) : 0 < s.inFlight →
      QStep s { s with inFlight := s.inFlight - 1, holders := s.holders - 1 }
  | proc (s : EpochState) (b : Bool) : QStep s { s with processing := b }
  | attempt (s : EpochState) (n : Int) (sch : Sched) : QStep s (attemptHashes s n sch).state
  | submit (s : EpochState) (params : List SubmitParams) (sch : Sched) :
      QStep s (submitHashes s params sch).state

/-- States reachable from the package `init()` state along executions that
never call `StartGetWork` while tasks of an earlier batch still hold
semaphore slots. -/
inductive QReachable (numCPU : Nat) : EpochState → Prop where
  | init : QReachable numCPU (initState numCPU)
  | step {s t : EpochState} : QReachable numCPU s → QStep s t → QReachable numCPU t

/-! ### session getters -/

/-- `GetSessionEPOCH_Result` (the session statistics record). -/
structure SessionResult where
  hashes : Nat
  miniBlocks : Int
  version : String
deriving DecidableEq, Repr

/-- The zero `GetSessionEPOCH_Result`. -/
def SessionResult.zero : SessionResult := { hashes := 0, miniBlocks := 0, version := "" }

/-- `GetSession(timeout)`: polls until not processing, then returns a copy of
`epoch.session`; `timedOut` selects the branch where the deadline fired first,
which returns the zero result with an error. -/
def getSessionModel (s : EpochState) (timedOut : Bool) : Option EpochErr × SessionResult :=
  if timedOut then (some .timeout, .zero)
  else (none, { hashes := s.sessionHashes, miniBlocks := s.sessionMiniBlocks
                version := s.sessionVersion })

/-- `GetSessionEPOCH(ctx)`: rejects when inactive (zero result), otherwise
`GetSession` with a 15 second timeout. -/
def getSessionEPOCHModel (s : EpochState) (timedOut : Bool) : Option EpochErr × SessionResult :=
  if ! s.active then (some .notActive, .zero)
  else getSessionModel s timedOut

/-! ### preservation lemmas -/

theorem setMaxHashes_frame (s : EpochState) (i : Int) :
    (setMaxHashes s i).1.inFlight = s.inFlight ∧ (setMaxHashes s i).1.holders = s.holders ∧
    (setMaxHashes s i).1.capacity = s.capacity ∧
    (setMaxHashes s i).1.sessionVersion = s.sessionVersion := by
  unfold setMaxHashes; split <;> exact ⟨rfl, rfl, rfl, rfl⟩

theorem setMaxThreads_frame (s : EpochState) (i : Int) :
    (setMaxThreads s i).inFlight = s.inFlight ∧ (setMaxThreads s i).holders = s.holders ∧
    (setMaxThreads s i).capacity = s.capacity ∧
    (setMaxThreads s i).sessionVersion = s.sessionVersion :=
  ⟨rfl, rfl, rfl, rfl⟩

theorem attemptHashes_frame (s : EpochState) (n : Int) (sch : Sched) :
    (attemptHashes s n sch).state.inFlight = s.inFlight ∧
    (attemptHashes s n sch).state.holders = s.holders ∧
    (attemptHashes s n sch).state.capacity = s.capacity ∧
    (attemptHashes s n sch).state.sessionVersion = s.sessionVersion := by
  unfold attemptHashes
  split
  · exact ⟨rfl, rfl, rfl, rfl⟩
  · split
    · exact ⟨rfl, rfl, rfl, rfl⟩
    · exact ⟨rfl, rfl, rfl, rfl⟩

theorem submitHashes_frame (s : EpochState) (params : List SubmitParams) (sch : Sched) :
    (submitHashes s params sch).state.inFlight = s.inFlight ∧
    (submitHashes s params sch).state.holders = s.holders ∧
    (submitHashes s params sch).state.capacity = s.capacity ∧
    (submitHashes s params sch).state.sessionVersion = s.sessionVersion ∧
    (submitHashes s params sch).state.sessionHashes = s.sessionHashes := by
  unfold submitHashes
  split
  · exact ⟨rfl, rfl, rfl, rfl, rfl⟩
  · split
    · exact ⟨rfl, rfl, rfl, rfl, rfl⟩
    · exact ⟨rfl, rfl, rfl, rfl, rfl⟩

/-- Each step keeps the semaphore occupancy within the channel capacity. -/
theorem step_semBound {s t : EpochState} (h : Step s t) (hs : s.inFlight ≤ s.capacity) :
    t.inFlight ≤ t.capacity := by
  cases h with
  | setHashes i =>
    obtain ⟨h1, -, h2, -⟩ := setMaxHashes_frame s i
    omega
  | setThreads i =>
    obtain ⟨h1, -, h2, -⟩ := setMaxThreads_frame s i
    omega
  | recvJob t => exact hs
  | start _ => exact Nat.zero_le _
  | stop => exact hs
  | acquire hlt => exact hlt
  | release _ => exact Nat.le_trans (Nat.sub_le _ _) hs
  | proc b => exact hs
  | attempt n sch =>
    obtain ⟨h1, -, h2, -⟩ := attemptHashes_frame s n sch
    omega
  | submit params sch =>
    obtain ⟨h1, -, h2, -, -⟩ := submitHashes_frame s params sch
    omega

/-- Semaphore occupancy invariant: in any reachable state the number of
acquired-but-unreleased slots is at most the capacity the semaphore channel
was created with. -/
theorem reachable_semBound {numCPU : Nat} {s : EpochState} (h : Reachable numCPU s) :
    s.inFlight ≤ s.capacity := by
  induction h with
  | init => exact Nat.le_refl 0
  | step _ hst ih => exact step_semBound hst ih

/-- In a quiescent-reconnect execution each step keeps the task-hold count
equal to the channel occupancy (and hence within the capacity). -/
theorem qstep_holders {s t : EpochState} (h : QStep s t)
    (hs : s.holders = s.inFlight ∧ s.inFlight ≤ s.capacity) :
    t.holders = t.inFlight ∧ t.inFlight ≤ t.capacity := by
  cases h with
  | setHashes i =>
    obtain ⟨h1, h2, h3, -⟩ := setMaxHashes_frame s i
    omega
  | setThreads i =>
    obtain ⟨h1, h2, h3, -⟩ := setMaxThreads_frame s i
    omega
  | recvJob t => exact hs
  | start _ h0 => exact ⟨h0, Nat.zero_le _⟩
  | stop => exact hs
  | acquire hlt => exact ⟨congrArg (· + 1) hs.1, hlt⟩
  | release _ => exact ⟨congrArg (· - 1) hs.1, Nat.le_trans (Nat.sub_le _ _) hs.2⟩
  | proc b => exact hs
  | attempt n sch =>
    obtain ⟨h1, h2, h3, -⟩ := attemptHashes_frame s n sch
    omega
  | submit params sch =>
    obtain ⟨h1, h2, h3, -, -⟩ := submitHashes_frame s params sch
    omega

/-- Quiescent-reconnect invariant: so long as `StartGetWork` is never called
while tasks still hold slots, the task-hold count tracks the channel
occupancy exactly (and so stays within the capacity). -/
theorem qreachable_holders {numCPU : Nat} {s : EpochState} (h : QReachable numCPU s) :
    s.holders = s.inFlight ∧ s.inFlight ≤ s.capacity := by
  induction h with
  | init => exact ⟨rfl, Nat.le_refl 0⟩
  | step _ hst ih => exact qstep_holders hst ih

/-- Without that restriction the task-hold count is *not* bounded by the
capacity: stop mid-batch while two tasks hold slots, reconnect — `StartGetWork`
swaps in a fresh empty channel of capacity 2 without waiting for the
stragglers, whose deferred releases will receive from the new channel — and
let two tasks of a new batch acquire: four tasks now hold unreleased slots
against capacity 2. -/
theorem holders_not_bounded_by_capacity :
    ∃ s : EpochState, Reachable 4 s ∧ s.capacity < s.holders := by
  have h1 : Reachable 4 (startGetWorkOk (initState 4)) :=
    Reachable.step Reachable.init (Step.start _ rfl)
  have h2 := Reachable.step h1 (Step.acquire _ (by decide))
  have h3 := Reachable.step h2 (Step.acquire _ (by decide))
  have h4 := Reachable.step h3 (Step.stop _)
  have h5 := Reachable.step h4 (Step.start _ rfl)
  have h6 := Reachable.step h5 (Step.acquire _ (by decide))
  have h7 := Reachable.step h6 (Step.acquire _ (by decide))
  exact ⟨_, h7, by decide⟩

/-- No step ever writes the session `Version` field. -/
theorem step_version {s t : EpochState} (h : Step s t) (hv : s.sessionVersion = "") :
    t.sessionVersion = "" := by
  cases h with
  | setHashes i => exact (setMaxHashes_frame s i).2.2.2.trans hv
  | setThreads i => exact (setMaxThreads_frame s i).2.2.2.trans hv
  | recvJob t => exact hv
  | start _ => exact hv
  | stop => exact hv
  | acquire _ => exact hv
  | release _ => exact hv
  | proc b => exact hv
  | attempt n sch => exact (attemptHashes_frame s n sch).2.2.2.trans hv
  | submit params sch => exact (submitHashes_frame s params sch).2.2.2.1.trans hv

/-- Version invariant: in any reachable state the session `Version` field is
still its zero value, the empty string. -/
theorem reachable_version {numCPU : Nat} {s : EpochState} (h : Reachable numCPU s) :
    s.sessionVersion = "" := by
  induction h with
  | init => rfl
  | step _ hst ih => exact step_version hst ih

/-! ### characterization of the dispatcher branches -/

theorem attemptHashes_inactive (s : EpochState) (n : Int) (sch : Sched)
    (h : s.active = false) :
    attemptHashes s n sch = ⟨s, some .notActive, .zero⟩ ∧ attemptLaunchCount s n sch = 0 := by
  unfold attemptHashes attemptLaunchCount
  rw [h]
  exact ⟨rfl, rfl⟩

theorem attemptHashes_reject (s : EpochState) (n : Int) (sch : Sched)
    (hact : s.active = true) (hgt : n > s.maxHashes) :
    attemptHashes s n sch = ⟨s, some .exceedsMaxHashes, .zero⟩ ∧
    attemptLaunchCount s n sch = 0 := by
  unfold attemptHashes attemptLaunchCount
  rw [hact]
  simp only [Bool.not_true, Bool.false_eq_true, if_false, if_pos hgt]
  exact ⟨trivial, trivial⟩

theorem attemptHashes_run (s : EpochState) (n : Int) (sch : Sched)
    (hact : s.active = true) (hle : n ≤ s.maxHashes) :
    attemptHashes s n sch =
      ⟨{ s with processing := false
                sessionHashes := u64add s.sessionHashes (launchCount sch.errSeen n.toNat)
                sessionMiniBlocks := i64wrap (s.sessionMiniBlocks +
                  (countValid sch.outcome (launchCount sch.errSeen n.toNat) : Int)) },
        none,
        { hashes := launchCount sch.errSeen n.toNat
          submitted := (countValid sch.outcome (launchCount sch.errSeen n.toNat) : Int)
          errored := anyErr sch.outcome (launchCount sch.errSeen n.toNat) }⟩ ∧
    attemptLaunchCount s n sch = launchCount sch.errSeen n.toNat := by
  unfold attemptHashes attemptLaunchCount
  rw [hact]
  simp only [Bool.not_true, Bool.false_eq_true, if_false, if_neg (not_lt.2 hle)]
  exact ⟨trivial, trivial⟩

theorem submitHashes_inactive (s : EpochState) (params : List SubmitParams) (sch : Sched)
    (h : s.active = false) :
    submitHashes s params sch = ⟨s, some .notActive, .zero⟩ ∧
    submitLaunchCount s params sch = 0 := by
  unfold submitHashes submitLaunchCount
  rw [h]
  exact ⟨rfl, rfl⟩

theorem submitHashes_reject (s : EpochState) (params : List SubmitParams) (sch : Sched)
    (hact : s.active = true) (hgt : (params.length : Int) > s.maxHashes) :
    submitHashes s params sch = ⟨s, some .submitExceedsMaxHashes, .zero⟩ ∧
    submitLaunchCount s params sch = 0 := by
  unfold submitHashes submitLaunchCount
  rw [hact]
  simp only [Bool.not_true, Bool.false_eq_true, if_false, if_pos hgt]
  exact ⟨trivial, trivial⟩

theorem submitHashes_run (s : EpochState) (params : List SubmitParams) (sch : Sched)
    (hact : s.active = true) (hle : (params.length : Int) ≤ s.maxHashes) :
    submitHashes s params sch =
      ⟨{ s with processing := false
                sessionMiniBlocks := i64wrap (s.sessionMiniBlocks +
                  (countValid sch.outcome (launchCount sch.errSeen params.length) : Int)) },
        none,
        { hashes := countNoErr sch.outcome (launchCount sch.errSeen params.length)
          submitted := (countValid sch.outcome (launchCount sch.errSeen params.length) : Int)
          errored := anyErr sch.outcome (launchCount sch.errSeen params.length) }⟩ ∧
    submitLaunchCount s params sch = launchCount sch.errSeen params.length := by
  unfold submitHashes submitLaunchCount
  rw [hact]
  simp only [Bool.not_true, Bool.false_eq_true, if_false, if_neg (not_lt.2 hle)]
  exact ⟨trivial, trivial⟩

/-- The dispatcher loop never launches more tasks than requested. -/
theorem launchCount_le (errSeen : Nat → Bool) (n : Nat) : launchCount errSeen n ≤ n := by
  unfold launchCount
  calc ((List.range n).takeWhile fun k => ! errSeen k).length
      ≤ (List.range n).length := List.Sublist.length_le (List.takeWhile_sublist _)
    _ = n := List.length_range n

/-- `i64wrap` is the identity on values representable as a 64-bit `int`. -/
theorem i64wrap_eq_self (x : Int) (h1 : -9223372036854775808 ≤ x)
    (h2 : x < 9223372036854775808) : i64wrap x = x := by
  unfold i64wrap
  omega

/-! ### concrete fixture states and schedules -/

/-- The engine state right after a successful `StartGetWork` on the `init()`
configuration of a 4-CPU host: active, `maxHashes = 1000`, semaphore
capacity 2. -/
def sActive : EpochState := startGetWorkOk (initState 4)

/-- A benign schedule: no batch error ever becomes visible to the loop and
every task submits a valid block. -/
def schAll : Sched := ⟨fun _ => false, fun _ => TaskResult.valid⟩

/-- A schedule whose tasks all error (e.g. their websocket write fails),
while the loop never sees the error in time to stop launching. -/
def schErr : Sched := ⟨fun _ => false, fun _ => TaskResult.err⟩

/-- A zero-valued precomputed submission parameter. -/
def p0 : SubmitParams := ⟨Template.zero, [], [], 0⟩

/-! ### claim C4 -/

/-- C4 counterexample: with the ceiling at its initial value 1000,
`SetMaxHashes(10001)` returns an error and leaves the ceiling at 1000 — the
effective ceiling after the call is not `min 10001 LIMIT_MAX_HASHES = 10000`. -/
theorem C4_counterexample :
    (setMaxHashes (initState 4) 10001).1.maxHashes ≠ min (10001 : Int) LIMIT_MAX_HASHES ∧
    (setMaxHashes (initState 4) 10001).2 = some EpochErr.exceedsLimit ∧
    (setMaxHashes (initState 4) 10001).1.maxHashes = (initState 4).maxHashes :=
  ⟨by decide, by decide, by decide⟩

/-- C4 (amended): `SetMaxHashes(i)` stores `i` as the new ceiling and succeeds
whenever `i ≤ LIMIT_MAX_HASHES`; for `i > LIMIT_MAX_HASHES` it returns an
error and leaves the ceiling unchanged (it rejects, it does not clamp). -/
theorem C4_setMaxHashes (s : EpochState) (i : Int) :
    (i ≤ LIMIT_MAX_HASHES → setMaxHashes s i = ({ s with maxHashes := i }, none)) ∧
    (i > LIMIT_MAX_HASHES → setMaxHashes s i = (s, some EpochErr.exceedsLimit)) := by
  constructor
  · intro h; unfold setMaxHashes; rw [if_neg (not_lt.2 h)]
  · intro h; unfold setMaxHashes; rw [if_pos h]

/-- Witness for C4 (amended) at concrete inputs. -/
theorem C4_witness :
    setMaxHashes (initState 4) 50 = ({ initState 4 with maxHashes := 50 }, none) ∧
    setMaxHashes (initState 4) 10001 = (initState 4, some EpochErr.exceedsLimit) :=
  ⟨(C4_setMaxHashes (initState 4) 50).1 (by decide),
   (C4_setMaxHashes (initState 4) 10001).2 (by decide)⟩

/-! ### claim C7 -/

/-- C7: after `SetMaxThreads(i)` the stored worker limit equals
`clamp(i, 1, numCPU)`: inputs above the available parallelism are reduced to
it, inputs below 1 become 1, anything in between is stored as given. -/
theorem C7_setMaxThreads (s : EpochState) (i : Int) (h : 1 ≤ s.numCPU) :
    (setMaxThreads s i).maxThreads = min (max i 1) (s.numCPU : Int) := by
  have hn : (1 : Int) ≤ (s.numCPU : Int) := by exact_mod_cast h
  unfold setMaxThreads
  show (if i > (s.numCPU : Int) then (s.numCPU : Int) else if i < 1 then 1 else i)
      = min (max i 1) (s.numCPU : Int)
  split
  · omega
  · split <;> omega

/-- Witness for C7 at a concrete input (9 threads requested on a 4-CPU host). -/
theorem C7_witness :
    (setMaxThreads (initState 4) 9).maxThreads = min (max 9 1) ((initState 4).numCPU : Int) :=
  C7_setMaxThreads (initState 4) 9 (by decide)

/-! ### claim C8 -/

/-- C8: storing a template with `newJob` and then reading with `getJob`
returns the identical template (all fields byte-identical), and `newJob`
returns exactly the template's last-error field. -/
theorem C8_job_roundtrip (s : EpochState) (t : Template) :
    getJob (newJob s t).1 = t ∧ (newJob s t).2 = t.lastError :=
  ⟨rfl, rfl⟩

/-! ### claim C9 -/

/-- C9: `SetMaxHashes` enforces no lower bound — every `i ≤ LIMIT_MAX_HASHES`,
zero and negative values included, is stored without error — and once the
ceiling is negative, every `AttemptHashes(n)` with `n ≥ 0` and every
`SubmitHashes(params)` (the empty list included) on an active connection is
rejected with a capacity error before any task launches. -/
theorem C9_no_lower_bound (s : EpochState) (i : Int) (hi : i ≤ LIMIT_MAX_HASHES) :
    ((setMaxHashes s i).2 = none ∧ (setMaxHashes s i).1.maxHashes = i) ∧
    (i < 0 → s.active = true →
      (∀ n : Int, 0 ≤ n → ∀ sch : Sched,
        (attemptHashes (setMaxHashes s i).1 n sch).err = some EpochErr.exceedsMaxHashes ∧
        attemptLaunchCount (setMaxHashes s i).1 n sch = 0) ∧
      (∀ params : List SubmitParams, ∀ sch : Sched,
        (submitHashes (setMaxHashes s i).1 params sch).err =
          some EpochErr.submitExceedsMaxHashes ∧
        submitLaunchCount (setMaxHashes s i).1 params sch = 0)) := by
  have hset : setMaxHashes s i = ({ s with maxHashes := i }, none) := by
    unfold setMaxHashes; rw [if_neg (not_lt.2 hi)]
  refine ⟨⟨by rw [hset], by rw [hset]⟩, ?_⟩
  intro hneg hact
  constructor
  · intro n hn sch
    rw [hset]
    have hgt : n > i := by omega
    have h1 := attemptHashes_reject { s with maxHashes := i } n sch hact hgt
    refine ⟨?_, h1.2⟩
    rw [h1.1]
  · intro params sch
    rw [hset]
    have hgt : (params.length : Int) > i := by omega
    have h1 := submitHashes_reject { s with maxHashes := i } params sch hact hgt
    refine ⟨?_, h1.2⟩
    rw [h1.1]

/-- Witness for C9 at concrete inputs: ceiling set to -5 on the active
fixture state, then `AttemptHashes(0)` and `SubmitHashes([])` both hit the
capacity rejection. -/
theorem C9_witness :
    ((setMaxHashes sActive (-5)).2 = none ∧ (setMaxHashes sActive (-5)).1.maxHashes = -5) ∧
    (attemptHashes (setMaxHashes sActive (-5)).1 0 schAll).err =
      some EpochErr.exceedsMaxHashes ∧
    (submitHashes (setMaxHashes sActive (-5)).1 [] schAll).err =
      some EpochErr.submitExceedsMaxHashes := by
  have h := C9_no_lower_bound sActive (-5) (by decide)
  exact ⟨h.1, ((h.2 (by decide) rfl).1 0 (by decide) schAll).1,
    ((h.2 (by decide) rfl).2 [] schAll).1⟩

/-! ### claim C2 -/

/-- C2 counterexample: `AttemptHashes(-1)` on the active fixture state is not
rejected (`err = none`, since -1 does not exceed the ceiling 1000); it
launches 0 tasks and reports 0 hashes, and 0 is not at most -1, so the
claim's "launches at most n tasks and Hashes ≤ n" fails at n = -1. -/
theorem C2_counterexample :
    (attemptHashes sActive (-1) schAll).err = none ∧
    attemptLaunchCount sActive (-1) schAll = 0 ∧
    ¬ (((attemptHashes sActive (-1) schAll).result.hashes : Int) ≤ -1) ∧
    ¬ ((attemptLaunchCount sActive (-1) schAll : Int) ≤ -1) :=
  ⟨by decide, by decide, by decide, by decide⟩

/-- C2 (amended): when the connection is inactive or `n` exceeds the
`maxHashes` ceiling, `AttemptHashes(n)` returns the corresponding error
immediately, launches no task and leaves the whole state (session counters
included) unchanged; otherwise it returns no error, launches at most
`max n 0` tasks and the `Hashes` field of its result is at most `max n 0`. -/
theorem C2_attemptHashes_bounds (s : EpochState) (n : Int) (sch : Sched) :
    (s.active = false →
      (attemptHashes s n sch).err = some EpochErr.notActive ∧
      (attemptHashes s n sch).state = s ∧
      attemptLaunchCount s n sch = 0) ∧
    (s.active = true → n > s.maxHashes →
      (attemptHashes s n sch).err = some EpochErr.exceedsMaxHashes ∧
      (attemptHashes s n sch).state = s ∧
      attemptLaunchCount s n sch = 0) ∧
    (s.active = true → n ≤ s.maxHashes →
      (attemptHashes s n sch).err = none ∧
      (attemptLaunchCount s n sch : Int) ≤ max n 0 ∧
      ((attemptHashes s n sch).result.hashes : Int) ≤ max n 0) := by
  refine ⟨?_, ?_, ?_⟩
  · intro h
    have h1 := attemptHashes_inactive s n sch h
    rw [h1.1]
    exact ⟨rfl, rfl, h1.2⟩
  · intro hact hgt
    have h1 := attemptHashes_reject s n sch hact hgt
    rw [h1.1]
    exact ⟨rfl, rfl, h1.2⟩
  · intro hact hle
    have h1 := attemptHashes_run s n sch hact hle
    have hl : launchCount sch.errSeen n.toNat ≤ n.toNat := launchCount_le _ _
    have hmax : ((n.toNat : Nat) : Int) = max n 0 := Int.toNat_eq_max n
    refine ⟨by rw [h1.1], ?_, ?_⟩
    · rw [h1.2, ← hmax]
      exact_mod_cast hl
    · rw [h1.1]
      show ((launchCount sch.errSeen n.toNat : Nat) : Int) ≤ max n 0
      rw [← hmax]
      exact_mod_cast hl

/-- Witness for C2 (amended) at concrete inputs: `AttemptHashes(5)` on the
active fixture state. -/
theorem C2_witness :
    (attemptHashes sActive 5 schAll).err = none ∧
    (attemptLaunchCount sActive 5 schAll : Int) ≤ max 5 0 ∧
    ((attemptHashes sActive 5 schAll).result.hashes : Int) ≤ max 5 0 :=
  (C2_attemptHashes_bounds sActive 5 schAll).2.2 rfl (by decide)

/-! ### claim C3 -/

/-- C3 counterexample: one precomputed submission whose task errors at
`submitBlock` (a failed websocket write). The batch is not rejected
(`err = none`) and one task is launched — and executes — but the erroring
task returns before the `i++`, so the result's `Hashes` field is 0, not the
number of tasks that actually executed (1). -/
theorem C3_counterexample :
    (submitHashes sActive [p0] schErr).err = none ∧
    submitLaunchCount sActive [p0] schErr = 1 ∧
    (submitHashes sActive [p0] schErr).result.hashes ≠
      submitLaunchCount sActive [p0] schErr :=
  ⟨by decide, by decide, by decide⟩

/-- C3 (amended): for every `SubmitHashes` call on an active connection whose
batch runs, the session miniblock counter is incremented (64-bit wraparound)
by exactly the batch's `Submitted` count, the session `Hashes` counter is
unchanged, and the result's `Hashes` field equals the number of launched
tasks whose submission step completed without a task error. -/
theorem C3_submitHashes_accounting (s : EpochState) (params : List SubmitParams)
    (sch : Sched) (hact : s.active = true) (hle : (params.length : Int) ≤ s.maxHashes) :
    (submitHashes s params sch).err = none ∧
    (submitHashes s params sch).state.sessionMiniBlocks =
      i64wrap (s.sessionMiniBlocks + (submitHashes s params sch).result.submitted) ∧
    (submitHashes s params sch).state.sessionHashes = s.sessionHashes ∧
    (submitHashes s params sch).result.hashes =
      countNoErr sch.outcome (submitLaunchCount s params sch) := by
  have h1 := submitHashes_run s params sch hact hle
  rw [h1.1, h1.2]
  exact ⟨rfl, rfl, rfl, rfl⟩

/-- Witness for C3 (amended) at concrete inputs. -/
theorem C3_witness :
    (submitHashes sActive [p0] schAll).err = none ∧
    (submitHashes sActive [p0] schAll).state.sessionMiniBlocks =
      i64wrap (sActive.sessionMiniBlocks + (submitHashes sActive [p0] schAll).result.submitted) ∧
    (submitHashes sActive [p0] schAll).state.sessionHashes = sActive.sessionHashes ∧
    (submitHashes sActive [p0] schAll).result.hashes =
      countNoErr schAll.outcome (submitLaunchCount sActive [p0] schAll) :=
  C3_submitHashes_accounting sActive [p0] schAll rfl (by decide)

/-! ### claim C6 -/

/-- C6 counterexample: a reachable active state whose `maxHashes` ceiling was
set to -1 by `SetMaxHashes(-1)`; on it `SubmitHashes([])` is rejected with a
capacity error (`0 > -1`) instead of succeeding. -/
theorem C6_counterexample :
    Reachable 4 (setMaxHashes sActive (-1)).1 ∧
    (setMaxHashes sActive (-1)).1.active = true ∧
    (submitHashes (setMaxHashes sActive (-1)).1 [] schAll).err =
      some EpochErr.submitExceedsMaxHashes := by
  refine ⟨?_, by decide, by decide⟩
  exact Reachable.step (Reachable.step Reachable.init (Step.start _ rfl))
    (Step.setHashes _ _)

/-- C6 (amended): on every engine state with an active connection whose
`maxHashes` ceiling is nonnegative (and session miniblock counter in 64-bit
range, as every Go `int` is), `SubmitHashes([])` succeeds with
`Hashes = 0`, `Submitted = 0` and leaves the session counters unchanged. -/
theorem C6_submit_empty (s : EpochState) (sch : Sched) (hact : s.active = true)
    (hnn : 0 ≤ s.maxHashes)
    (hlo : -9223372036854775808 ≤ s.sessionMiniBlocks)
    (hhi : s.sessionMiniBlocks < 9223372036854775808) :
    (submitHashes s [] sch).err = none ∧
    (submitHashes s [] sch).result.hashes = 0 ∧
    (submitHashes s [] sch).result.submitted = 0 ∧
    (submitHashes s [] sch).state.sessionHashes = s.sessionHashes ∧
    (submitHashes s [] sch).state.sessionMiniBlocks = s.sessionMiniBlocks ∧
    (submitHashes s [] sch).state.sessionVersion = s.sessionVersion := by
  have h1 := submitHashes_run s [] sch hact (by simpa using hnn)
  rw [h1.1]
  refine ⟨rfl, rfl, rfl, rfl, ?_, rfl⟩
  show i64wrap (s.sessionMiniBlocks +
      ((countValid sch.outcome (launchCount sch.errSeen 0) : Nat) : Int)) = s.sessionMiniBlocks
  have hc : countValid sch.outcome (launchCount sch.errSeen 0) = 0 := rfl
  rw [hc]
  unfold i64wrap
  omega

/-- Witness for C6 (amended) at the active fixture state. -/
theorem C6_witness :
    (submitHashes sActive [] schAll).err = none ∧
    (submitHashes sActive [] schAll).result.hashes = 0 ∧
    (submitHashes sActive [] schAll).result.submitted = 0 ∧
    (submitHashes sActive [] schAll).state.sessionHashes = sActive.sessionHashes ∧
    (submitHashes sActive [] schAll).state.sessionMiniBlocks = sActive.sessionMiniBlocks ∧
    (submitHashes sActive [] schAll).state.sessionVersion = sActive.sessionVersion :=
  C6_submit_empty sActive schAll rfl (by decide) (by decide) (by decide)

/-! ### claim C1 -/

/-- State after `SetMaxThreads(1)` is called while the connection (capacity 2)
is up. -/
def c1s2 : EpochState := setMaxThreads sActive 1

/-- One in-flight batch task has acquired a slot. -/
def c1s3 : EpochState := { c1s2 with inFlight := c1s2.inFlight + 1, holders := c1s2.holders + 1 }

/-- A second concurrent task has acquired a slot. -/
def c1s4 : EpochState := { c1s3 with inFlight := c1s3.inFlight + 1, holders := c1s3.holders + 1 }

/-- C1 counterexample: a reachable execution point — connect with worker
limit 2, call `SetMaxThreads(1)` mid-session, then let two tasks of a batch
acquire semaphore slots — at which the number of tasks that have acquired a
slot and not yet released it (2) exceeds the configured worker limit
`maxThreads` (1): the semaphore keeps the capacity frozen at connection time,
not the current setting. The point is reachable even along quiescent
executions (no reconnect happens at all here). -/
theorem C1_counterexample :
    Reachable 4 c1s4 ∧ QReachable 4 c1s4 ∧
    c1s4.maxThreads < (c1s4.holders : Int) ∧ c1s4.holders = c1s4.inFlight := by
  refine ⟨?_, ?_, by decide, by decide⟩
  · exact Reachable.step (Reachable.step (Reachable.step (Reachable.step Reachable.init
      (Step.start _ rfl)) (Step.setThreads _ 1)) (Step.acquire _ (by decide)))
      (Step.acquire _ (by decide))
  · exact QReachable.step (QReachable.step (QReachable.step (QReachable.step QReachable.init
      (QStep.start _ rfl rfl)) (QStep.setThreads _ 1)) (QStep.acquire _ (by decide)))
      (QStep.acquire _ (by decide))

/-- C1 (amended): at every reachable point (overlapping concurrent calls and
mid-batch reconnects included) the occupancy of the current semaphore channel
never exceeds the worker limit it was sized with at connection establishment;
along executions that never call `StartGetWork` while tasks still hold slots,
the number of tasks holding an unreleased slot equals that occupancy and so
never exceeds the limit either (a mid-batch reconnect voids this: see
`holders_not_bounded_by_capacity`); and every launched task's event trace
acquires exactly one slot, before any work, and releases exactly one, as its
final action, on every exit path of both dispatchers' task bodies. -/
theorem C1_semaphore_discipline (numCPU : Nat) (s sq : EpochState)
    (h : Reachable numCPU s) (hq : QReachable numCPU sq) :
    s.inFlight ≤ s.capacity ∧
    (sq.holders = sq.inFlight ∧ sq.holders ≤ sq.capacity) ∧
    (∀ p : AttemptPath,
      (attemptTaskTrace p).count SemEv.acq = 1 ∧
      (attemptTaskTrace p).count SemEv.rel = 1 ∧
      (attemptTaskTrace p).head? = some SemEv.acq ∧
      (attemptTaskTrace p).getLast? = some SemEv.rel) ∧
    (∀ p : SubmitPath,
      (submitTaskTrace p).count SemEv.acq = 1 ∧
      (submitTaskTrace p).count SemEv.rel = 1 ∧
      (submitTaskTrace p).head? = some SemEv.acq ∧
      (submitTaskTrace p).getLast? = some SemEv.rel) := by
  obtain ⟨he, hle⟩ := qreachable_holders hq
  refine ⟨reachable_semBound h, ⟨he, by omega⟩, ?_, ?_⟩
  · intro p; cases p <;> exact ⟨by decide, by decide, by decide, by decide⟩
  · intro p; cases p <;> exact ⟨by decide, by decide, by decide, by decide⟩

/-- Witness for C1 (amended) at the initial state and concrete task paths. -/
theorem C1_witness :
    (initState 4).inFlight ≤ (initState 4).capacity ∧
    (initState 4).holders = (initState 4).inFlight ∧
    (attemptTaskTrace AttemptPath.powErr).count SemEv.rel = 1 ∧
    (submitTaskTrace SubmitPath.valid).count SemEv.rel = 1 :=
  ⟨(C1_semaphore_discipline 4 (initState 4) (initState 4) Reachable.init QReachable.init).1,
   (C1_semaphore_discipline 4 (initState 4) (initState 4) Reachable.init QReachable.init).2.1.1,
   ((C1_semaphore_discipline 4 (initState 4) (initState 4) Reachable.init
      QReachable.init).2.2.1 AttemptPath.powErr).2.1,
   ((C1_semaphore_discipline 4 (initState 4) (initState 4) Reachable.init
      QReachable.init).2.2.2 SubmitPath.valid).2.1⟩

/-! ### claim C5 -/

/-- A hashing blob of 2*MINIBLOCK_SIZE + 2 valid hex characters: decoding it
would yield MINIBLOCK_SIZE + 1 bytes. -/
def longBlob : String := String.mk (List.replicate (2 * MINIBLOCK_SIZE + 2) 'a')

/-- A well-formed 96-character blob decoding to 48 bytes whose leading byte
0x11 carries version nibble 1. -/
def goodBlob : String := String.mk ('1' :: '1' :: List.replicate (2 * MINIBLOCK_SIZE - 2) 'a')

/-- A 96-character blob whose leading byte 0xaa carries version nibble 10. -/
def badVersionBlob : String := String.mk (List.replicate (2 * MINIBLOCK_SIZE) 'a')

/-- A short valid-hex blob, decoding to fewer than 48 bytes. -/
def shortBlob : String := String.mk (List.replicate 8 'a')

/-- C5: evaluation of `powHash` at the inputs the claim quantifies over. A
blob longer than 2*MINIBLOCK_SIZE hex characters makes `hex.Decode` write
past the 48-byte `work` buffer: an out-of-range runtime panic, not the
per-task error the claim describes. A short blob and a wrong leading version
nibble do produce the per-task error return, and a well-formed blob proceeds
to the hash. -/
theorem C5_powHash_long_blob_panics :
    powHashModel longBlob (List.replicate 12 0) = PowOutcome.panicked ∧
    powHashModel shortBlob (List.replicate 12 0) = PowOutcome.failed ∧
    powHashModel badVersionBlob (List.replicate 12 0) = PowOutcome.failed ∧
    powHashModel goodBlob (List.replicate 12 0) ≠ PowOutcome.failed ∧
    powHashModel goodBlob (List.replicate 12 0) ≠ PowOutcome.panicked :=
  ⟨by decide, by decide, by decide, by decide, by decide⟩

/-! ### claim C10 -/

/-- C10: the session `Version` field is never assigned by any operation: in
every reachable state — in particular after a successful `StartGetWork`,
which resets only the hash and miniblock counters — both `GetSession` and
`GetSessionEPOCH` return a result whose version is the empty string (and so
do their timeout and inactive branches, which return the zero result). -/
theorem C10_version_never_set (numCPU : Nat) (s : EpochState) (timedOut : Bool)
    (h : Reachable numCPU s) :
    (getSessionModel s timedOut).2.version = "" ∧
    (getSessionEPOCHModel s timedOut).2.version = "" := by
  have hv := reachable_version h
  have hg : (getSessionModel s timedOut).2.version = "" := by
    unfold getSessionModel
    split
    · rfl
    · exact hv
  refine ⟨hg, ?_⟩
  unfold getSessionEPOCHModel
  split
  · rfl
  · exact hg

/-- Witness for C10 at the initial state. -/
theorem C10_witness :
    (getSessionModel (initState 4) false).2.version = "" ∧
    (getSessionEPOCHModel (initState 4) false).2.version = "" :=
  C10_version_never_set 4 (initState 4) false Reachable.init
